import Mathlib

set_option maxRecDepth 100000

/-!
Verification of the AES Integer Counter Mode cipher engine
(`crypto/cipher/aes_icm_ossl.c`): context allocation and key-size
validation, counter/offset derivation, the IV-to-counter transform,
the CTR cipher driver, lifecycle and known-answer self-tests.

Bytes are `Nat` values below 256; 128-bit blocks are 16-byte lists in
big-endian field order, exactly as the C `v128_t` octet view.
-/

namespace AesIcm

/-- Modelled from the spec: the external block-cipher primitive (the
capability "encrypt/decrypt a byte stream under key K starting at counter
block C", provided by the OpenSSL EVP layer, outside this core) is AES as
standardised in FIPS-197.  This is the AES S-box table. -/
def sbox : List Nat := [
  0x63, 0x7c, 0x77, 0x7b, 0xf2, 0x6b, 0x6f, 0xc5,
  0x30, 0x01, 0x67, 0x2b, 0xfe, 0xd7, 0xab, 0x76,
  0xca, 0x82, 0xc9, 0x7d, 0xfa, 0x59, 0x47, 0xf0,
  0xad, 0xd4, 0xa2, 0xaf, 0x9c, 0xa4, 0x72, 0xc0,
  0xb7, 0xfd, 0x93, 0x26, 0x36, 0x3f, 0xf7, 0xcc,
  0x34, 0xa5, 0xe5, 0xf1, 0x71, 0xd8, 0x31, 0x15,
  0x04, 0xc7, 0x23, 0xc3, 0x18, 0x96, 0x05, 0x9a,
  0x07, 0x12, 0x80, 0xe2, 0xeb, 0x27, 0xb2, 0x75,
  0x09, 0x83, 0x2c, 0x1a, 0x1b, 0x6e, 0x5a, 0xa0,
  0x52, 0x3b, 0xd6, 0xb3, 0x29, 0xe3, 0x2f, 0x84,
  0x53, 0xd1, 0x00, 0xed, 0x20, 0xfc, 0xb1, 0x5b,
  0x6a, 0xcb, 0xbe, 0x39, 0x4a, 0x4c, 0x58, 0xcf,
  0xd0, 0xef, 0xaa, 0xfb, 0x43, 0x4d, 0x33, 0x85,
  0x45, 0xf9, 0x02, 0x7f, 0x50, 0x3c, 0x9f, 0xa8,
  0x51, 0xa3, 0x40, 0x8f, 0x92, 0x9d, 0x38, 0xf5,
  0xbc, 0xb6, 0xda, 0x21, 0x10, 0xff, 0xf3, 0xd2,
  0xcd, 0x0c, 0x13, 0xec, 0x5f, 0x97, 0x44, 0x17,
  0xc4, 0xa7, 0x7e, 0x3d, 0x64, 0x5d, 0x19, 0x73,
  0x60, 0x81, 0x4f, 0xdc, 0x22, 0x2a, 0x90, 0x88,
  0x46, 0xee, 0xb8, 0x14, 0xde, 0x5e, 0x0b, 0xdb,
  0xe0, 0x32, 0x3a, 0x0a, 0x49, 0x06, 0x24, 0x5c,
  0xc2, 0xd3, 0xac, 0x62, 0x91, 0x95, 0xe4, 0x79,
  0xe7, 0xc8, 0x37, 0x6d, 0x8d, 0xd5, 0x4e, 0xa9,
  0x6c, 0x56, 0xf4, 0xea, 0x65, 0x7a, 0xae, 0x08,
  0xba, 0x78, 0x25, 0x2e, 0x1c, 0xa6, 0xb4, 0xc6,
  0xe8, 0xdd, 0x74, 0x1f, 0x4b, 0xbd, 0x8b, 0x8a,
  0x70, 0x3e, 0xb5, 0x66, 0x48, 0x03, 0xf6, 0x0e,
  0x61, 0x35, 0x57, 0xb9, 0x86, 0xc1, 0x1d, 0x9e,
  0xe1, 0xf8, 0x98, 0x11, 0x69, 0xd9, 0x8e, 0x94,
  0x9b, 0x1e, 0x87, 0xe9, 0xce, 0x55, 0x28, 0xdf,
  0x8c, 0xa1, 0x89, 0x0d, 0xbf, 0xe6, 0x42, 0x68,
  0x41, 0x99, 0x2d, 0x0f, 0xb0, 0x54, 0xbb, 0x16]

/-- S-box lookup on a byte. -/
def sboxAt (i : Nat) : Nat := sbox.getD i 0

/-- Multiplication by x in GF(2^8) with the AES reduction polynomial. -/
def xtime (a : Nat) : Nat := if a < 0x80 then a * 2 else (a * 2) ^^^ 0x11b

/-- Multiplication by 2 in GF(2^8). -/
def gmul2 (a : Nat) : Nat := xtime a

/-- Multiplication by 3 in GF(2^8). -/
def gmul3 (a : Nat) : Nat := xtime a ^^^ a

/-- XOR of two byte lists, pointwise. -/
def wordXor (a b : List Nat) : List Nat := List.zipWith HXor.hXor a b

/-- Apply the S-box to each byte of a 4-byte word. -/
def subWord (w : List Nat) : List Nat := w.map sboxAt

/-- Rotate a 4-byte word left by one byte. -/
def rotWord (w : List Nat) : List Nat := w.drop 1 ++ w.take 1

/-- AES round constants. -/
def rcon : List Nat := [0x01, 0x02, 0x04, 0x08, 0x10, 0x20, 0x40, 0x80, 0x1b, 0x36]

/-- Split a byte list into consecutive 4-byte words. -/
def chunk4 : List Nat → List (List Nat)
  | a :: b :: c :: d :: rest => [a, b, c, d] :: chunk4 rest
  | _ => []

/-- One step of the FIPS-197 key schedule: the next word from the words
produced so far. -/
def expandStep (nk : Nat) (ws : List (List Nat)) : List Nat :=
  let i := ws.length
  let temp := ws.getD (i - 1) []
  let temp :=
    if i % nk = 0 then
      wordXor (subWord (rotWord temp)) [rcon.getD (i / nk - 1) 0, 0, 0, 0]
    else if 6 < nk ∧ i % nk = 4 then
      subWord temp
    else
      temp
  wordXor (ws.getD (i - nk) []) temp

/-- Produce `n` further key-schedule words. -/
def keyExpandAux (nk : Nat) : Nat → List (List Nat) → List (List Nat)
  | 0, ws => ws
  | n + 1, ws => keyExpandAux nk n (ws ++ [expandStep nk ws])

/-- FIPS-197 key expansion: `4 * (nr + 1)` words from a 16/24/32-byte key. -/
def keyExpansion (key : List Nat) : List (List Nat) :=
  let nk := key.length / 4
  keyExpandAux nk (4 * (nk + 6 + 1) - nk) (chunk4 key)

/-- Round key `r` as 16 flat bytes (words `4r .. 4r+3`). -/
def roundKey (ws : List (List Nat)) (r : Nat) : List Nat :=
  ((ws.drop (4 * r)).take 4).flatten

/-- SubBytes on a 16-byte state (flat, column-major as in FIPS-197). -/
def subBytes (s : List Nat) : List Nat := s.map sboxAt

/-- ShiftRows: row r of the state rotates left by r. -/
def shiftRows (s : List Nat) : List Nat :=
  (List.range 16).map (fun i => s.getD (4 * ((i / 4 + i % 4) % 4) + i % 4) 0)

/-- MixColumns on one 4-byte column. -/
def mixCol : List Nat → List Nat
  | [a, b, c, d] =>
    [gmul2 a ^^^ gmul3 b ^^^ c ^^^ d,
     a ^^^ gmul2 b ^^^ gmul3 c ^^^ d,
     a ^^^ b ^^^ gmul2 c ^^^ gmul3 d,
     gmul3 a ^^^ b ^^^ c ^^^ gmul2 d]
  | l => l

/-- MixColumns on the whole state. -/
def mixColumns (s : List Nat) : List Nat :=
  mixCol (s.take 4) ++ mixCol ((s.drop 4).take 4) ++
    mixCol ((s.drop 8).take 4) ++ mixCol ((s.drop 12).take 4)

/-- AddRoundKey. -/
def addRoundKey (s rk : List Nat) : List Nat := wordXor s rk

/-- A middle AES round. -/
def aesRound (rk s : List Nat) : List Nat :=
  addRoundKey (mixColumns (shiftRows (subBytes s))) rk

/-- The final AES round (no MixColumns). -/
def aesFinalRound (rk s : List Nat) : List Nat :=
  addRoundKey (shiftRows (subBytes s)) rk

/-- Modelled from the spec: AES block encryption (FIPS-197), the raw block
transform of the external primitive, which the core explicitly does not
implement itself. -/
def aes_encrypt_block (key block : List Nat) : List Nat :=
  let nk := key.length / 4
  let nr := nk + 6
  let ws := keyExpansion key
  let s0 := addRoundKey block (roundKey ws 0)
  let sMid := (List.range (nr - 1)).foldl (fun s r => aesRound (roundKey ws (r + 1)) s) s0
  aesFinalRound (roundKey ws nr) sMid

/-- A 16-byte block read as a big-endian natural number. -/
def blockToNat (b : List Nat) : Nat := b.foldl (fun acc x => acc * 256 + x) 0

/-- A natural number written as a 16-byte big-endian block (mod 2^128). -/
def natToBlock (n : Nat) : List Nat :=
  (List.range 16).map (fun i => n / 256 ^ (15 - i) % 256)

/-- Counter block number `i` of a CTR stream: the starting counter plus `i`,
as a 128-bit big-endian integer (overflow wraps mod 2^128). -/
def ctrBlock (counter : List Nat) (i : Nat) : List Nat :=
  natToBlock ((blockToNat counter + i) % 2 ^ 128)

/-- Modelled from the spec: the keystream of the external CTR primitive —
AES encryptions of successive counter blocks, concatenated. -/
def keystreamBlocks (key counter : List Nat) (nblocks : Nat) : List Nat :=
  ((List.range nblocks).map (fun i => aes_encrypt_block key (ctrBlock counter i))).flatten

/-- `n` keystream bytes starting at stream position `pos`. -/
def keystreamBytes (key counter : List Nat) (pos n : Nat) : List Nat :=
  ((keystreamBlocks key counter ((pos + n + 15) / 16)).drop pos).take n

/-- Modelled from the spec: the internal state of the external
block-cipher/CTR primitive (the OpenSSL `EVP_CIPHER_CTX` after a
successful `EVP_EncryptInit_ex`): the key, the starting counter block, and
the current byte position in the keystream. -/
structure EvpCtrState where
  key : List Nat
  counter : List Nat
  pos : Nat
  deriving DecidableEq

end AesIcm

open AesIcm

/-- Modelled from the spec: the salt is 112 bits = 14 bytes
(`SRTP_SALT_SIZE`, declared in the repository headers outside this file). -/
def SRTP_SALT_SIZE : Nat := 14

/-- Modelled from the spec: raw AES-128 key size in bytes. -/
def SRTP_AES_128_KEYSIZE : Nat := 16

/-- Modelled from the spec: raw AES-192 key size in bytes. -/
def SRTP_AES_192_KEYSIZE : Nat := 24

/-- Modelled from the spec: raw AES-256 key size in bytes. -/
def SRTP_AES_256_KEYSIZE : Nat := 32

/-- Modelled from the spec: AES-128 key+salt class total, 30 bytes. -/
def SRTP_AES_128_KEYSIZE_WSALT : Int := 30

/-- Modelled from the spec: AES-192 key+salt class total, 38 bytes. -/
def SRTP_AES_192_KEYSIZE_WSALT : Int := 38

/-- Modelled from the spec: AES-256 key+salt class total, 46 bytes. -/
def SRTP_AES_256_KEYSIZE_WSALT : Int := 46

/-- Modelled from the spec: the `srtp_err_status_t` error taxonomy declared
in the repository headers (ok / fail / bad_param / alloc_fail /
cipher_fail are the values this file returns). -/
inductive srtp_err_status_t where
  | ok
  | fail
  | bad_param
  | alloc_fail
  | cipher_fail
  deriving DecidableEq

/-- Modelled from the spec: `v128_set_to_zero` from the repository's math
layer — a 128-bit block of 16 zero bytes. -/
def v128_set_to_zero : List Nat := List.replicate 16 0

/-- Modelled from the spec: `v128_copy_octet_string` — copy exactly 16
bytes from an octet string into a 128-bit block. -/
def v128_copy_octet_string (s : List Nat) : List Nat := s.take 16

/-- Modelled from the spec: `v128_xor` — bitwise XOR over the full 128-bit
block. -/
def v128_xor (a b : List Nat) : List Nat := List.zipWith HXor.hXor a b

/-- `memcpy(dst, src, n)` into the front of a 16-byte block: the first `n`
bytes come from `src`, the rest keep `dst`'s bytes. -/
def memcpyPrefix (dst src : List Nat) (n : Nat) : List Nat :=
  src.take n ++ dst.drop n

/-- The AES ICM cipher context `srtp_aes_icm_ctx_t`: 32 bytes of key
storage (two 16-byte slots), the salt-derived offset, the live counter,
the raw key size in bytes, and the external EVP context. -/
structure srtp_aes_icm_ctx_t where
  counter : List Nat
  offset : List Nat
  key : List Nat
  key_size : Nat
  ctx : Option EvpCtrState
  deriving DecidableEq

/-- The all-zero context produced by `memset(icm, 0x0, sizeof ...)` at
allocation, and by `octet_string_set_to_zero` at deallocation. -/
def zero_icm_ctx : srtp_aes_icm_ctx_t :=
  { counter := List.replicate 16 0
    offset := List.replicate 16 0
    key := List.replicate 32 0
    key_size := 0
    ctx := none }

/-- Algorithm identifiers bound by allocation. -/
inductive srtp_algorithm_t where
  | SRTP_AES_128_ICM
  | SRTP_AES_192_ICM
  | SRTP_AES_256_ICM
  deriving DecidableEq

/-- Cipher-type identifiers (`srtp_cipher_type_id_t`). -/
inductive srtp_cipher_type_id_t where
  | SRTP_AES_ICM
  | SRTP_AES_192_ICM_ID
  | SRTP_AES_256_ICM_ID
  deriving DecidableEq

/-- The outer cipher object `srtp_cipher_t`: algorithm identifier, which
function table it points to, the inflated key length, and the engine
state. -/
structure srtp_cipher_t where
  algorithm : srtp_algorithm_t
  cipher_type : srtp_cipher_type_id_t
  key_len : Int
  state : Option srtp_aes_icm_ctx_t
  deriving DecidableEq

/-- `srtp_aes_icm_openssl_alloc`: validates that `key_len` is exactly one
of 30/38/46, zero-initializes the cipher and engine contexts, and binds
the algorithm, cipher type and raw key size for the matching class.
(The `srtp_crypto_alloc` out-of-memory path is not modelled: allocation
succeeds.)  `tlen` is the unused AEAD tag length. -/
def srtp_aes_icm_openssl_alloc (key_len : Int) (tlen : Int) :
    Except srtp_err_status_t srtp_cipher_t :=
  if key_len ≠ SRTP_AES_128_KEYSIZE_WSALT ∧
     key_len ≠ SRTP_AES_192_KEYSIZE_WSALT ∧
     key_len ≠ SRTP_AES_256_KEYSIZE_WSALT then
    .error .bad_param
  else if key_len = SRTP_AES_128_KEYSIZE_WSALT then
    .ok { algorithm := .SRTP_AES_128_ICM
          cipher_type := .SRTP_AES_ICM
          key_len := key_len
          state := some { zero_icm_ctx with key_size := SRTP_AES_128_KEYSIZE } }
  else if key_len = SRTP_AES_192_KEYSIZE_WSALT then
    .ok { algorithm := .SRTP_AES_192_ICM
          cipher_type := .SRTP_AES_192_ICM_ID
          key_len := key_len
          state := some { zero_icm_ctx with key_size := SRTP_AES_192_KEYSIZE } }
  else
    .ok { algorithm := .SRTP_AES_256_ICM
          cipher_type := .SRTP_AES_256_ICM_ID
          key_len := key_len
          state := some { zero_icm_ctx with key_size := SRTP_AES_256_KEYSIZE } }

/-- `srtp_aes_icm_openssl_dealloc`: a null cipher is rejected with
`bad_param`; otherwise the EVP context is cleaned up, the whole engine
context is overwritten with zero bytes and freed, and the cipher wrapper
is freed.  The second component of the result is the content of the
engine-context memory at the instant it is released (`none` when no
engine context was released). -/
def srtp_aes_icm_openssl_dealloc (c : Option srtp_cipher_t) :
    srtp_err_status_t × Option srtp_aes_icm_ctx_t :=
  match c with
  | none => (.bad_param, none)
  | some cc =>
    match cc.state with
    | none => (.ok, none)
    | some _ => (.ok, some zero_icm_ctx)

/-- `srtp_aes_icm_openssl_context_init`: zero the counter and offset,
copy the 14 salt bytes (at offset `key_size` in the key buffer) into
bytes 0..13 of both, force bytes 14 and 15 of both to zero, copy the
first 16 key bytes into the first key slot, and for 24/32-byte keys copy
bytes 16..31 of the buffer into the second slot; clean up the EVP context
and return ok. -/
def srtp_aes_icm_openssl_context_init (c : srtp_aes_icm_ctx_t) (key : List Nat) :
    srtp_err_status_t × srtp_aes_icm_ctx_t :=
  let blk := memcpyPrefix v128_set_to_zero (key.drop c.key_size) SRTP_SALT_SIZE
  let blk := (blk.set SRTP_SALT_SIZE 0).set (SRTP_SALT_SIZE + 1) 0
  let keyStore :=
    if c.key_size = SRTP_AES_256_KEYSIZE ∨ c.key_size = SRTP_AES_192_KEYSIZE then
      v128_copy_octet_string key ++
        v128_copy_octet_string (key.drop SRTP_AES_128_KEYSIZE)
    else
      v128_copy_octet_string key ++ c.key.drop 16
  (.ok, { c with counter := blk, offset := blk, key := keyStore, ctx := none })

/-- `srtp_aes_icm_openssl_set_iv`: copy the 16-byte IV, overwrite the
counter with `offset XOR nonce` over the full 128-bit block, select the
AES variant from `key_size` (anything other than 16/24/32 fails with
`bad_param`), and re-seed the external primitive with the context's key
and the new counter.  The direction argument is ignored.  The mutated
context is returned alongside the status. -/
def srtp_aes_icm_openssl_set_iv (c : srtp_aes_icm_ctx_t) (iv : List Nat) (dir : Int) :
    srtp_err_status_t × srtp_aes_icm_ctx_t :=
  let nonce := v128_copy_octet_string iv
  let c := { c with counter := v128_xor c.offset nonce }
  if c.key_size = SRTP_AES_256_KEYSIZE ∨
     c.key_size = SRTP_AES_192_KEYSIZE ∨
     c.key_size = SRTP_AES_128_KEYSIZE then
    (.ok, { c with ctx := some { key := c.key.take c.key_size
                                 counter := c.counter
                                 pos := 0 } })
  else
    (.bad_param, c)

/-- `srtp_aes_icm_openssl_encrypt`: run the external CTR primitive over
the buffer in place (`EVP_EncryptUpdate` XORs it with the keystream and
reports the same length; `EVP_EncryptFinal_ex` adds no bytes in CTR
mode).  A context whose EVP state was never seeded fails with
`cipher_fail`.  Returns status, the context (with the primitive's stream
position advanced) and the processed buffer. -/
def srtp_aes_icm_openssl_encrypt (c : srtp_aes_icm_ctx_t) (buf : List Nat) :
    srtp_err_status_t × srtp_aes_icm_ctx_t × List Nat :=
  match c.ctx with
  | none => (.cipher_fail, c, buf)
  | some st =>
    let ks := keystreamBytes st.key st.counter st.pos buf.length
    let out := List.zipWith HXor.hXor buf ks
    (.ok, { c with ctx := some { st with pos := st.pos + buf.length } }, out)

/-- The function-table type `srtp_cipher_type_t`, with the entry points
this file installs (the AEAD-only slots are omitted; the source sets them
to null). -/
structure srtp_cipher_type_t where
  alloc : Int → Int → Except srtp_err_status_t srtp_cipher_t
  dealloc : Option srtp_cipher_t → srtp_err_status_t × Option srtp_aes_icm_ctx_t
  init : srtp_aes_icm_ctx_t → List Nat → srtp_err_status_t × srtp_aes_icm_ctx_t
  encrypt : srtp_aes_icm_ctx_t → List Nat → srtp_err_status_t × srtp_aes_icm_ctx_t × List Nat
  decrypt : srtp_aes_icm_ctx_t → List Nat → srtp_err_status_t × srtp_aes_icm_ctx_t × List Nat
  set_iv : srtp_aes_icm_ctx_t → List Nat → Int → srtp_err_status_t × srtp_aes_icm_ctx_t
  description : String
  id : srtp_cipher_type_id_t

/-- The AES-128 ICM function table `srtp_aes_icm`. -/
def srtp_aes_icm : srtp_cipher_type_t :=
  { alloc := srtp_aes_icm_openssl_alloc
    dealloc := srtp_aes_icm_openssl_dealloc
    init := srtp_aes_icm_openssl_context_init
    encrypt := srtp_aes_icm_openssl_encrypt
    decrypt := srtp_aes_icm_openssl_encrypt
    set_iv := srtp_aes_icm_openssl_set_iv
    description := "AES-128 counter mode using openssl"
    id := .SRTP_AES_ICM }

/-- The AES-192 ICM function table `srtp_aes_icm_192`. -/
def srtp_aes_icm_192 : srtp_cipher_type_t :=
  { alloc := srtp_aes_icm_openssl_alloc
    dealloc := srtp_aes_icm_openssl_dealloc
    init := srtp_aes_icm_openssl_context_init
    encrypt := srtp_aes_icm_openssl_encrypt
    decrypt := srtp_aes_icm_openssl_encrypt
    set_iv := srtp_aes_icm_openssl_set_iv
    description := "AES-192 counter mode using openssl"
    id := .SRTP_AES_192_ICM_ID }

/-- The AES-256 ICM function table `srtp_aes_icm_256`. -/
def srtp_aes_icm_256 : srtp_cipher_type_t :=
  { alloc := srtp_aes_icm_openssl_alloc
    dealloc := srtp_aes_icm_openssl_dealloc
    init := srtp_aes_icm_openssl_context_init
    encrypt := srtp_aes_icm_openssl_encrypt
    decrypt := srtp_aes_icm_openssl_encrypt
    set_iv := srtp_aes_icm_openssl_set_iv
    description := "AES-256 counter mode using openssl"
    id := .SRTP_AES_256_ICM_ID }

/-- KAT fixture: AES-128 key+salt (30 bytes). -/
def srtp_aes_icm_test_case_0_key : List Nat :=
  [0x2b, 0x7e, 0x15, 0x16, 0x28, 0xae, 0xd2, 0xa6,
   0xab, 0xf7, 0x15, 0x88, 0x09, 0xcf, 0x4f, 0x3c,
   0xf0, 0xf1, 0xf2, 0xf3, 0xf4, 0xf5, 0xf6, 0xf7,
   0xf8, 0xf9, 0xfa, 0xfb, 0xfc, 0xfd]

/-- KAT fixture: AES-128 nonce (16 zero bytes). -/
def srtp_aes_icm_test_case_0_nonce : List Nat := List.replicate 16 0

/-- KAT fixture: AES-128 plaintext (32 zero bytes). -/
def srtp_aes_icm_test_case_0_plaintext : List Nat := List.replicate 32 0

/-- KAT fixture: AES-128 expected ciphertext. -/
def srtp_aes_icm_test_case_0_ciphertext : List Nat :=
  [0xe0, 0x3e, 0xad, 0x09, 0x35, 0xc9, 0x5e, 0x80,
   0xe1, 0x66, 0xb1, 0x6d, 0xd9, 0x2b, 0x4e, 0xb4,
   0xd2, 0x35, 0x13, 0x16, 0x2b, 0x02, 0xd0, 0xf7,
   0x2a, 0x43, 0xa2, 0xfe, 0x4a, 0x5f, 0x97, 0xab]

/-- KAT fixture: AES-192 key+salt (38 bytes, RFC 6188 §7). -/
def srtp_aes_icm_192_test_case_1_key : List Nat :=
  [0xea, 0xb2, 0x34, 0x76, 0x4e, 0x51, 0x7b, 0x2d,
   0x3d, 0x16, 0x0d, 0x58, 0x7d, 0x8c, 0x86, 0x21,
   0x97, 0x40, 0xf6, 0x5f, 0x99, 0xb6, 0xbc, 0xf7,
   0xf0, 0xf1, 0xf2, 0xf3, 0xf4, 0xf5, 0xf6, 0xf7,
   0xf8, 0xf9, 0xfa, 0xfb, 0xfc, 0xfd]

/-- KAT fixture: AES-192 expected ciphertext. -/
def srtp_aes_icm_192_test_case_1_ciphertext : List Nat :=
  [0x35, 0x09, 0x6c, 0xba, 0x46, 0x10, 0x02, 0x8d,
   0xc1, 0xb5, 0x75, 0x03, 0x80, 0x4c, 0xe3, 0x7c,
   0x5d, 0xe9, 0x86, 0x29, 0x1d, 0xcc, 0xe1, 0x61,
   0xd5, 0x16, 0x5e, 0xc4, 0x56, 0x8f, 0x5c, 0x9a]

/-- KAT fixture: AES-256 key+salt (46 bytes, RFC 6188 §7). -/
def srtp_aes_icm_256_test_case_2_key : List Nat :=
  [0x57, 0xf8, 0x2f, 0xe3, 0x61, 0x3f, 0xd1, 0x70,
   0xa8, 0x5e, 0xc9, 0x3c, 0x40, 0xb1, 0xf0, 0x92,
   0x2e, 0xc4, 0xcb, 0x0d, 0xc0, 0x25, 0xb5, 0x82,
   0x72, 0x14, 0x7c, 0xc4, 0x38, 0x94, 0x4a, 0x98,
   0xf0, 0xf1, 0xf2, 0xf3, 0xf4, 0xf5, 0xf6, 0xf7,
   0xf8, 0xf9, 0xfa, 0xfb, 0xfc, 0xfd]

/-- KAT fixture: AES-256 expected ciphertext. -/
def srtp_aes_icm_256_test_case_2_ciphertext : List Nat :=
  [0x92, 0xbd, 0xd2, 0x8a, 0x93, 0xc3, 0xf5, 0x25,
   0x11, 0xc6, 0x77, 0xd0, 0x8b, 0x55, 0x15, 0xa4,
   0x9d, 0xa7, 0x1b, 0x23, 0x78, 0xa8, 0x54, 0xf6,
   0x70, 0x50, 0x75, 0x6d, 0xed, 0x16, 0x5b, 0xac]

/-- Modelled from the spec: the self-test sequence of the harness —
`allocate → initialize(key+salt) → set_iv(nonce) → process(plaintext)`,
returning the processed buffer, or `none` if any stage reports an error. -/
def icm_self_test_run (key_len : Int) (keybuf nonce pt : List Nat) :
    Option (List Nat) :=
  match srtp_aes_icm_openssl_alloc key_len 0 with
  | .error _ => none
  | .ok c =>
    match c.state with
    | none => none
    | some icm =>
      let r1 := srtp_aes_icm_openssl_context_init icm keybuf
      if r1.1 ≠ .ok then none else
      let r2 := srtp_aes_icm_openssl_set_iv r1.2 nonce 0
      if r2.1 ≠ .ok then none else
      let r3 := srtp_aes_icm_openssl_encrypt r2.2 pt
      if r3.1 ≠ .ok then none else some r3.2.2

/-- KAT fixture: AES-192 nonce (16 zero bytes). -/
def srtp_aes_icm_192_test_case_1_nonce : List Nat := List.replicate 16 0

/-- KAT fixture: AES-192 plaintext (32 zero bytes). -/
def srtp_aes_icm_192_test_case_1_plaintext : List Nat := List.replicate 32 0

/-- KAT fixture: AES-256 nonce (16 zero bytes). -/
def srtp_aes_icm_256_test_case_2_nonce : List Nat := List.replicate 16 0

/-- KAT fixture: AES-256 plaintext (32 zero bytes). -/
def srtp_aes_icm_256_test_case_2_plaintext : List Nat := List.replicate 32 0

/-- The AES-128 known-answer test, evaluated. -/
theorem icm_kat_128_holds :
    icm_self_test_run SRTP_AES_128_KEYSIZE_WSALT srtp_aes_icm_test_case_0_key
        srtp_aes_icm_test_case_0_nonce srtp_aes_icm_test_case_0_plaintext
      = some srtp_aes_icm_test_case_0_ciphertext := by decide

/-- The AES-192 known-answer test, evaluated. -/
theorem icm_kat_192_holds :
    icm_self_test_run SRTP_AES_192_KEYSIZE_WSALT srtp_aes_icm_192_test_case_1_key
        srtp_aes_icm_192_test_case_1_nonce srtp_aes_icm_192_test_case_1_plaintext
      = some srtp_aes_icm_192_test_case_1_ciphertext := by decide

/-- The AES-256 known-answer test, evaluated. -/
theorem icm_kat_256_holds :
    icm_self_test_run SRTP_AES_256_KEYSIZE_WSALT srtp_aes_icm_256_test_case_2_key
        srtp_aes_icm_256_test_case_2_nonce srtp_aes_icm_256_test_case_2_plaintext
      = some srtp_aes_icm_256_test_case_2_ciphertext := by decide

/-- C1: for every key-size class, allocate, initialize with the fixture
key+salt, set_iv with the fixture 16-byte nonce, and process over the
fixture plaintext produce exactly the known-answer ciphertext: for
AES-128 the 32 bytes e03ead09...4a5f97ab, for AES-192 the RFC 6188
vector, and for AES-256 the 32 bytes 92bdd28a...ed165bac quoted in the
spec. -/
theorem srtp_aes_icm_known_answer_tests :
    icm_self_test_run SRTP_AES_128_KEYSIZE_WSALT srtp_aes_icm_test_case_0_key
        srtp_aes_icm_test_case_0_nonce srtp_aes_icm_test_case_0_plaintext
      = some srtp_aes_icm_test_case_0_ciphertext ∧
    icm_self_test_run SRTP_AES_192_KEYSIZE_WSALT srtp_aes_icm_192_test_case_1_key
        srtp_aes_icm_192_test_case_1_nonce srtp_aes_icm_192_test_case_1_plaintext
      = some srtp_aes_icm_192_test_case_1_ciphertext ∧
    icm_self_test_run SRTP_AES_256_KEYSIZE_WSALT srtp_aes_icm_256_test_case_2_key
        srtp_aes_icm_256_test_case_2_nonce srtp_aes_icm_256_test_case_2_plaintext
      = some srtp_aes_icm_256_test_case_2_ciphertext :=
  ⟨icm_kat_128_holds, icm_kat_192_holds, icm_kat_256_holds⟩

/-- Writing at an index past the first list of an append writes into the
second list. -/
theorem set_append_of_le (l₁ l₂ : List Nat) (n : Nat) (a : Nat)
    (h : l₁.length ≤ n) :
    (l₁ ++ l₂).set n a = l₁ ++ l₂.set (n - l₁.length) a := by
  induction l₁ generalizing n with
  | nil => simp
  | cons x xs ih =>
    cases n with
    | zero => simp at h
    | succ m =>
      simp only [List.cons_append, List.set_cons_succ, List.length_cons]
      rw [ih m (by simpa using h)]
      simp [Nat.succ_sub_succ]

/-- Reading `zipWith xor` at an in-bounds index is the XOR of the reads. -/
theorem getD_zipWith_xor (a b : List Nat) (i : Nat)
    (ha : i < a.length) (hb : i < b.length) :
    (List.zipWith HXor.hXor a b).getD i 0 = a.getD i 0 ^^^ b.getD i 0 := by
  induction a generalizing b i with
  | nil => simp at ha
  | cons x xs ih =>
    cases b with
    | nil => simp at hb
    | cons y ys =>
      cases i with
      | zero => simp
      | succ j =>
        simpa using ih ys j (by simpa using ha) (by simpa using hb)

/-- `set_iv` always overwrites the counter with `offset XOR nonce`,
whether or not it subsequently fails. -/
theorem set_iv_snd_counter (c : srtp_aes_icm_ctx_t) (iv : List Nat) (dir : Int) :
    (srtp_aes_icm_openssl_set_iv c iv dir).2.counter
      = v128_xor c.offset (v128_copy_octet_string iv) := by
  by_cases h : c.key_size = SRTP_AES_256_KEYSIZE ∨
      c.key_size = SRTP_AES_192_KEYSIZE ∨ c.key_size = SRTP_AES_128_KEYSIZE <;>
    simp [srtp_aes_icm_openssl_set_iv, h]

/-- `set_iv` never modifies the offset. -/
theorem set_iv_snd_offset (c : srtp_aes_icm_ctx_t) (iv : List Nat) (dir : Int) :
    (srtp_aes_icm_openssl_set_iv c iv dir).2.offset = c.offset := by
  by_cases h : c.key_size = SRTP_AES_256_KEYSIZE ∨
      c.key_size = SRTP_AES_192_KEYSIZE ∨ c.key_size = SRTP_AES_128_KEYSIZE <;>
    simp [srtp_aes_icm_openssl_set_iv, h]

/-- `set_iv` never modifies the key storage. -/
theorem set_iv_snd_key (c : srtp_aes_icm_ctx_t) (iv : List Nat) (dir : Int) :
    (srtp_aes_icm_openssl_set_iv c iv dir).2.key = c.key := by
  by_cases h : c.key_size = SRTP_AES_256_KEYSIZE ∨
      c.key_size = SRTP_AES_192_KEYSIZE ∨ c.key_size = SRTP_AES_128_KEYSIZE <;>
    simp [srtp_aes_icm_openssl_set_iv, h]

/-- `set_iv` never modifies the key size. -/
theorem set_iv_snd_key_size (c : srtp_aes_icm_ctx_t) (iv : List Nat) (dir : Int) :
    (srtp_aes_icm_openssl_set_iv c iv dir).2.key_size = c.key_size := by
  by_cases h : c.key_size = SRTP_AES_256_KEYSIZE ∨
      c.key_size = SRTP_AES_192_KEYSIZE ∨ c.key_size = SRTP_AES_128_KEYSIZE <;>
    simp [srtp_aes_icm_openssl_set_iv, h]

/-- `encrypt` never modifies the counter, offset, key or key size. -/
theorem encrypt_preserves_fields (c : srtp_aes_icm_ctx_t) (buf : List Nat) :
    (srtp_aes_icm_openssl_encrypt c buf).2.1.counter = c.counter ∧
    (srtp_aes_icm_openssl_encrypt c buf).2.1.offset = c.offset ∧
    (srtp_aes_icm_openssl_encrypt c buf).2.1.key = c.key ∧
    (srtp_aes_icm_openssl_encrypt c buf).2.1.key_size = c.key_size := by
  rcases hc : c.ctx with _ | st <;>
    simp [srtp_aes_icm_openssl_encrypt, hc]

/-- A list of length 16 is unchanged by `v128_copy_octet_string`. -/
theorem v128_copy_of_length_16 (iv : List Nat) (h : iv.length = 16) :
    v128_copy_octet_string iv = iv := by
  unfold v128_copy_octet_string
  exact List.take_of_length_le (by omega)

/-- C2: on an initialized context (one whose key size is one of the three
classes) and any 16-byte nonce, `set_iv` sets the counter to
`offset XOR nonce` over the full 128-bit block and re-seeds the external
CTR primitive with the context's key and that counter as the starting
counter block; the direction argument has no effect, and two calls with
the same nonce yield identical counters. -/
theorem srtp_aes_icm_set_iv_xor_reseed (c : srtp_aes_icm_ctx_t) (iv : List Nat)
    (dir dir2 : Int)
    (hk : c.key_size = SRTP_AES_128_KEYSIZE ∨ c.key_size = SRTP_AES_192_KEYSIZE ∨
          c.key_size = SRTP_AES_256_KEYSIZE)
    (hiv : iv.length = 16) :
    (srtp_aes_icm_openssl_set_iv c iv dir).1 = .ok ∧
    (srtp_aes_icm_openssl_set_iv c iv dir).2.counter = v128_xor c.offset iv ∧
    (srtp_aes_icm_openssl_set_iv c iv dir).2.ctx
      = some { key := c.key.take c.key_size
               counter := v128_xor c.offset iv
               pos := 0 } ∧
    srtp_aes_icm_openssl_set_iv c iv dir = srtp_aes_icm_openssl_set_iv c iv dir2 ∧
    (srtp_aes_icm_openssl_set_iv c iv dir).2.counter
      = (srtp_aes_icm_openssl_set_iv c iv dir2).2.counter := by
  have hcopy := v128_copy_of_length_16 iv hiv
  rcases hk with h | h | h <;>
    simp [srtp_aes_icm_openssl_set_iv, hcopy, h, SRTP_AES_128_KEYSIZE,
      SRTP_AES_192_KEYSIZE, SRTP_AES_256_KEYSIZE]

/-- Witness for C2 at a concrete context and nonce. -/
theorem srtp_aes_icm_set_iv_xor_reseed_witness :
    (srtp_aes_icm_openssl_set_iv { zero_icm_ctx with key_size := 16 }
        (List.replicate 16 0) 0).1 = .ok ∧
    (srtp_aes_icm_openssl_set_iv { zero_icm_ctx with key_size := 16 }
        (List.replicate 16 0) 0).2.counter
      = v128_xor ({ zero_icm_ctx with key_size := 16 } : srtp_aes_icm_ctx_t).offset
          (List.replicate 16 0) ∧
    (srtp_aes_icm_openssl_set_iv { zero_icm_ctx with key_size := 16 }
        (List.replicate 16 0) 0).2.ctx
      = some { key := ({ zero_icm_ctx with key_size := 16 } : srtp_aes_icm_ctx_t).key.take 16
               counter := v128_xor
                 ({ zero_icm_ctx with key_size := 16 } : srtp_aes_icm_ctx_t).offset
                 (List.replicate 16 0)
               pos := 0 } ∧
    srtp_aes_icm_openssl_set_iv { zero_icm_ctx with key_size := 16 }
        (List.replicate 16 0) 0
      = srtp_aes_icm_openssl_set_iv { zero_icm_ctx with key_size := 16 }
        (List.replicate 16 0) 1 ∧
    (srtp_aes_icm_openssl_set_iv { zero_icm_ctx with key_size := 16 }
        (List.replicate 16 0) 0).2.counter
      = (srtp_aes_icm_openssl_set_iv { zero_icm_ctx with key_size := 16 }
        (List.replicate 16 0) 1).2.counter :=
  srtp_aes_icm_set_iv_xor_reseed { zero_icm_ctx with key_size := 16 }
    (List.replicate 16 0) 0 1 (Or.inl rfl) (by simp)

/-- C4: allocation succeeds exactly for the key+salt lengths 30, 38 and
46; each success binds the matching algorithm identifier, cipher type and
raw key size over otherwise zero-initialized state, and every other
length is rejected with `bad_param` without constructing a context. -/
theorem srtp_aes_icm_alloc_validates_key_len (key_len tlen : Int) :
    (key_len = 30 →
      srtp_aes_icm_openssl_alloc key_len tlen
        = .ok { algorithm := .SRTP_AES_128_ICM
                cipher_type := .SRTP_AES_ICM
                key_len := 30
                state := some { zero_icm_ctx with key_size := 16 } }) ∧
    (key_len = 38 →
      srtp_aes_icm_openssl_alloc key_len tlen
        = .ok { algorithm := .SRTP_AES_192_ICM
                cipher_type := .SRTP_AES_192_ICM_ID
                key_len := 38
                state := some { zero_icm_ctx with key_size := 24 } }) ∧
    (key_len = 46 →
      srtp_aes_icm_openssl_alloc key_len tlen
        = .ok { algorithm := .SRTP_AES_256_ICM
                cipher_type := .SRTP_AES_256_ICM_ID
                key_len := 46
                state := some { zero_icm_ctx with key_size := 32 } }) ∧
    (key_len ≠ 30 ∧ key_len ≠ 38 ∧ key_len ≠ 46 →
      srtp_aes_icm_openssl_alloc key_len tlen = .error .bad_param) := by
  refine ⟨fun h => ?_, fun h => ?_, fun h => ?_, fun h => ?_⟩ <;>
    simp [srtp_aes_icm_openssl_alloc, h, SRTP_AES_128_KEYSIZE_WSALT,
      SRTP_AES_192_KEYSIZE_WSALT, SRTP_AES_256_KEYSIZE_WSALT,
      SRTP_AES_128_KEYSIZE, SRTP_AES_192_KEYSIZE, SRTP_AES_256_KEYSIZE]

/-- Witness for C4 at the three valid lengths and one invalid length. -/
theorem srtp_aes_icm_alloc_validates_key_len_witness :
    srtp_aes_icm_openssl_alloc 30 0
      = .ok { algorithm := .SRTP_AES_128_ICM
              cipher_type := .SRTP_AES_ICM
              key_len := 30
              state := some { zero_icm_ctx with key_size := 16 } } ∧
    srtp_aes_icm_openssl_alloc 31 0 = .error .bad_param :=
  ⟨(srtp_aes_icm_alloc_validates_key_len 30 0).1 rfl,
   (srtp_aes_icm_alloc_validates_key_len 31 0).2.2.2 (by decide)⟩

/-- C7 counterexample: deallocating a null context does not return a
success status — the code returns `bad_param`. -/
theorem srtp_aes_icm_dealloc_null_cex :
    (srtp_aes_icm_openssl_dealloc none).1 = srtp_err_status_t.bad_param ∧
    (srtp_aes_icm_openssl_dealloc none).1 ≠ srtp_err_status_t.ok := by
  exact ⟨rfl, by decide⟩

/-- C7 (amended): deallocating a null context changes no state (no engine
memory is released) but reports `bad_param`, an error status, rather than
success. -/
theorem srtp_aes_icm_dealloc_null_reports_bad_param :
    srtp_aes_icm_openssl_dealloc none = (srtp_err_status_t.bad_param, none) := rfl

/-- C8: deallocating a non-null cipher whose engine state is present
succeeds and overwrites the entire engine context — key, offset, counter,
key size and the external handle — with zero before the memory is
released. -/
theorem srtp_aes_icm_dealloc_zeroizes (c : srtp_cipher_t)
    (icm : srtp_aes_icm_ctx_t) (h : c.state = some icm) :
    srtp_aes_icm_openssl_dealloc (some c) = (.ok, some zero_icm_ctx) ∧
    zero_icm_ctx.key = List.replicate 32 0 ∧
    zero_icm_ctx.offset = List.replicate 16 0 ∧
    zero_icm_ctx.counter = List.replicate 16 0 ∧
    zero_icm_ctx.key_size = 0 ∧
    zero_icm_ctx.ctx = none := by
  refine ⟨?_, rfl, rfl, rfl, rfl, rfl⟩
  simp [srtp_aes_icm_openssl_dealloc, h]

/-- Witness for C8 at a concrete cipher object. -/
theorem srtp_aes_icm_dealloc_zeroizes_witness :
    srtp_aes_icm_openssl_dealloc
        (some { algorithm := .SRTP_AES_128_ICM
                cipher_type := .SRTP_AES_ICM
                key_len := 30
                state := some { zero_icm_ctx with key_size := 16 } })
      = (.ok, some zero_icm_ctx) ∧
    zero_icm_ctx.key = List.replicate 32 0 ∧
    zero_icm_ctx.offset = List.replicate 16 0 ∧
    zero_icm_ctx.counter = List.replicate 16 0 ∧
    zero_icm_ctx.key_size = 0 ∧
    zero_icm_ctx.ctx = none :=
  srtp_aes_icm_dealloc_zeroizes _ { zero_icm_ctx with key_size := 16 } rfl

/-- C9: `set_iv` is not atomic on error: on a context whose key size is
none of 16, 24 or 32 it returns `bad_param`, yet the returned context's
counter has already been overwritten with `offset XOR nonce` — the
pre-call counter is not restored. -/
theorem srtp_aes_icm_set_iv_not_atomic (c : srtp_aes_icm_ctx_t)
    (iv : List Nat) (dir : Int)
    (hk : c.key_size ≠ 16 ∧ c.key_size ≠ 24 ∧ c.key_size ≠ 32) :
    (srtp_aes_icm_openssl_set_iv c iv dir).1 = .bad_param ∧
    (srtp_aes_icm_openssl_set_iv c iv dir).2.counter
      = v128_xor c.offset (v128_copy_octet_string iv) := by
  refine ⟨?_, set_iv_snd_counter c iv dir⟩
  simp [srtp_aes_icm_openssl_set_iv, hk.1, hk.2.1, hk.2.2,
    SRTP_AES_128_KEYSIZE, SRTP_AES_192_KEYSIZE, SRTP_AES_256_KEYSIZE]

/-- Witness for C9: a freshly allocated-but-never-sized context (key size
0) with a nonce whose bytes differ from the zero counter. -/
theorem srtp_aes_icm_set_iv_not_atomic_witness :
    (srtp_aes_icm_openssl_set_iv zero_icm_ctx
        (List.replicate 14 0 ++ [7, 7]) 0).1 = .bad_param ∧
    (srtp_aes_icm_openssl_set_iv zero_icm_ctx
        (List.replicate 14 0 ++ [7, 7]) 0).2.counter
      = v128_xor zero_icm_ctx.offset
          (v128_copy_octet_string (List.replicate 14 0 ++ [7, 7])) :=
  srtp_aes_icm_set_iv_not_atomic zero_icm_ctx
    (List.replicate 14 0 ++ [7, 7]) 0 (by decide)

/-- The status returned by `context_init` is always ok. -/
theorem context_init_fst (c : srtp_aes_icm_ctx_t) (key : List Nat) :
    (srtp_aes_icm_openssl_context_init c key).1 = .ok := rfl

/-- The counter written by `context_init`, before simplification. -/
theorem context_init_counter (c : srtp_aes_icm_ctx_t) (key : List Nat) :
    (srtp_aes_icm_openssl_context_init c key).2.counter
      = ((memcpyPrefix v128_set_to_zero (key.drop c.key_size) SRTP_SALT_SIZE).set
          SRTP_SALT_SIZE 0).set (SRTP_SALT_SIZE + 1) 0 := rfl

/-- The offset written by `context_init` equals its counter. -/
theorem context_init_offset (c : srtp_aes_icm_ctx_t) (key : List Nat) :
    (srtp_aes_icm_openssl_context_init c key).2.offset
      = (srtp_aes_icm_openssl_context_init c key).2.counter := rfl

/-- `context_init` leaves the EVP context cleaned up. -/
theorem context_init_ctx (c : srtp_aes_icm_ctx_t) (key : List Nat) :
    (srtp_aes_icm_openssl_context_init c key).2.ctx = none := rfl

/-- `context_init` does not change the key size. -/
theorem context_init_key_size (c : srtp_aes_icm_ctx_t) (key : List Nat) :
    (srtp_aes_icm_openssl_context_init c key).2.key_size = c.key_size := rfl

/-- The key storage written by `context_init`, by key-size class. -/
theorem context_init_key (c : srtp_aes_icm_ctx_t) (key : List Nat) :
    (srtp_aes_icm_openssl_context_init c key).2.key
      = if c.key_size = 32 ∨ c.key_size = 24 then
          key.take 16 ++ (key.drop 16).take 16
        else
          key.take 16 ++ c.key.drop 16 := by
  by_cases h : c.key_size = SRTP_AES_256_KEYSIZE ∨ c.key_size = SRTP_AES_192_KEYSIZE <;>
    simp [srtp_aes_icm_openssl_context_init, v128_copy_octet_string,
      SRTP_AES_128_KEYSIZE, SRTP_AES_192_KEYSIZE, SRTP_AES_256_KEYSIZE, h]

/-- The salt block built by `context_init` is the 14 salt bytes followed
by two zero bytes, whenever the key buffer holds `key_size + 14` bytes. -/
theorem context_init_salt_block (c : srtp_aes_icm_ctx_t) (key : List Nat)
    (hlen : c.key_size + 14 ≤ key.length) :
    ((memcpyPrefix v128_set_to_zero (key.drop c.key_size) SRTP_SALT_SIZE).set
        SRTP_SALT_SIZE 0).set (SRTP_SALT_SIZE + 1) 0
      = (key.drop c.key_size).take 14 ++ [0, 0] := by
  have hs : ((key.drop c.key_size).take 14).length = 14 := by
    simp only [List.length_take, List.length_drop]
    omega
  have h1 : memcpyPrefix v128_set_to_zero (key.drop c.key_size) SRTP_SALT_SIZE
      = (key.drop c.key_size).take 14 ++ [0, 0] := by
    simp [memcpyPrefix, v128_set_to_zero, SRTP_SALT_SIZE]
  rw [h1, show SRTP_SALT_SIZE = 14 from rfl,
    set_append_of_le _ _ _ _ (by simp [hs]),
    set_append_of_le _ _ _ _ (by simp [hs])]
  simp [hs]

/-- C3: on an allocated context of any of the three key-size classes and
a key buffer of at least `key_size + 14` bytes, `initialize` makes both
the counter and the offset equal to the 14 salt bytes (the bytes right
after the key) followed by two forced zero bytes, copies the first
`key_size` key bytes into the context's key storage (for sizes above 16
the bytes from offset 16 fill the second 16-byte slot), and returns
success. -/
theorem srtp_aes_icm_context_init_spec (c : srtp_aes_icm_ctx_t) (key : List Nat)
    (hk : c.key_size = 16 ∨ c.key_size = 24 ∨ c.key_size = 32)
    (hlen : c.key_size + 14 ≤ key.length) :
    (srtp_aes_icm_openssl_context_init c key).1 = .ok ∧
    (srtp_aes_icm_openssl_context_init c key).2.counter
      = (key.drop c.key_size).take 14 ++ [0, 0] ∧
    (srtp_aes_icm_openssl_context_init c key).2.offset
      = (key.drop c.key_size).take 14 ++ [0, 0] ∧
    (srtp_aes_icm_openssl_context_init c key).2.key.take c.key_size
      = key.take c.key_size ∧
    (16 < c.key_size →
      (srtp_aes_icm_openssl_context_init c key).2.key.drop 16
        = (key.drop 16).take 16) := by
  have hcnt := (context_init_salt_block c key hlen) ▸ context_init_counter c key
  have htake16 : (key.take 16).length = 16 := by
    simp only [List.length_take]
    omega
  refine ⟨context_init_fst c key, hcnt, (context_init_offset c key).trans hcnt, ?_, ?_⟩
  · rcases hk with h | h | h
    · rw [context_init_key, if_neg (by omega), h, List.take_left' htake16]
    · rw [context_init_key, if_pos (Or.inr h), ← List.take_add, h, List.take_take]
      norm_num
    · rw [context_init_key, if_pos (Or.inl h), ← List.take_add, h, List.take_take]
      norm_num
  · intro hgt
    rcases hk with h | h | h
    · omega
    · rw [context_init_key, if_pos (Or.inr h), List.drop_left' htake16]
    · rw [context_init_key, if_pos (Or.inl h), List.drop_left' htake16]

/-- Witness for C3 at the AES-128 fixture key. -/
theorem srtp_aes_icm_context_init_spec_witness :
    (srtp_aes_icm_openssl_context_init { zero_icm_ctx with key_size := 16 }
        srtp_aes_icm_test_case_0_key).1 = .ok ∧
    (srtp_aes_icm_openssl_context_init { zero_icm_ctx with key_size := 16 }
        srtp_aes_icm_test_case_0_key).2.counter
      = (srtp_aes_icm_test_case_0_key.drop
          ({ zero_icm_ctx with key_size := 16 } : srtp_aes_icm_ctx_t).key_size).take 14
        ++ [0, 0] ∧
    (srtp_aes_icm_openssl_context_init { zero_icm_ctx with key_size := 16 }
        srtp_aes_icm_test_case_0_key).2.offset
      = (srtp_aes_icm_test_case_0_key.drop
          ({ zero_icm_ctx with key_size := 16 } : srtp_aes_icm_ctx_t).key_size).take 14
        ++ [0, 0] ∧
    (srtp_aes_icm_openssl_context_init { zero_icm_ctx with key_size := 16 }
        srtp_aes_icm_test_case_0_key).2.key.take
          ({ zero_icm_ctx with key_size := 16 } : srtp_aes_icm_ctx_t).key_size
      = srtp_aes_icm_test_case_0_key.take
          ({ zero_icm_ctx with key_size := 16 } : srtp_aes_icm_ctx_t).key_size ∧
    (16 < ({ zero_icm_ctx with key_size := 16 } : srtp_aes_icm_ctx_t).key_size →
      (srtp_aes_icm_openssl_context_init { zero_icm_ctx with key_size := 16 }
          srtp_aes_icm_test_case_0_key).2.key.drop 16
        = (srtp_aes_icm_test_case_0_key.drop 16).take 16) :=
  srtp_aes_icm_context_init_spec { zero_icm_ctx with key_size := 16 }
    srtp_aes_icm_test_case_0_key (Or.inl rfl) (by decide)

/-- The AES-128 fixture context right after `initialize`. -/
def test_ctx_128 : srtp_aes_icm_ctx_t :=
  (srtp_aes_icm_openssl_context_init { zero_icm_ctx with key_size := 16 }
    srtp_aes_icm_test_case_0_key).2

/-- C5 counterexample: on the initialized AES-128 fixture context and a
16-byte nonce whose trailing two bytes are 1, the counter produced by
`set_iv` does not have zero trailing bytes — they equal the nonce's. -/
theorem srtp_aes_icm_set_iv_trailing_zero_cex :
    ¬(((srtp_aes_icm_openssl_set_iv test_ctx_128
          (List.replicate 14 0 ++ [1, 1]) 0).2.counter.getD 14 0 = 0) ∧
      ((srtp_aes_icm_openssl_set_iv test_ctx_128
          (List.replicate 14 0 ++ [1, 1]) 0).2.counter.getD 15 0 = 0)) := by
  decide

/-- When the offset's trailing two bytes are zero, the counter written by
`set_iv` agrees with the nonce on its trailing two bytes. -/
theorem set_iv_trailing_of_offset_zero (c : srtp_aes_icm_ctx_t)
    (iv : List Nat) (dir : Int)
    (hoff : c.offset.length = 16)
    (h14 : c.offset.getD 14 0 = 0) (h15 : c.offset.getD 15 0 = 0)
    (hiv : iv.length = 16) :
    (srtp_aes_icm_openssl_set_iv c iv dir).2.counter.getD 14 0 = iv.getD 14 0 ∧
    (srtp_aes_icm_openssl_set_iv c iv dir).2.counter.getD 15 0 = iv.getD 15 0 := by
  rw [set_iv_snd_counter, v128_copy_of_length_16 iv hiv]
  unfold v128_xor
  constructor
  · rw [getD_zipWith_xor c.offset iv 14 (by omega) (by omega), h14]
    exact Nat.zero_xor _
  · rw [getD_zipWith_xor c.offset iv 15 (by omega) (by omega), h15]
    exact Nat.zero_xor _

/-- C5 (amended): after `set_iv` the trailing 16 bits of the counter
equal the trailing 16 bits of the caller-supplied nonce (the offset's
trailing bytes are zero, so the XOR passes the nonce bytes through); they
are zero exactly when the nonce's trailing bytes are zero. -/
theorem srtp_aes_icm_set_iv_trailing_eq_nonce (c : srtp_aes_icm_ctx_t)
    (iv : List Nat) (dir : Int)
    (hoff : c.offset.length = 16)
    (h14 : c.offset.getD 14 0 = 0) (h15 : c.offset.getD 15 0 = 0)
    (hiv : iv.length = 16) :
    (srtp_aes_icm_openssl_set_iv c iv dir).2.counter.getD 14 0 = iv.getD 14 0 ∧
    (srtp_aes_icm_openssl_set_iv c iv dir).2.counter.getD 15 0 = iv.getD 15 0 :=
  set_iv_trailing_of_offset_zero c iv dir hoff h14 h15 hiv

/-- Witness for the amended C5 on the fixture context and a nonce with
nonzero trailing bytes. -/
theorem srtp_aes_icm_set_iv_trailing_eq_nonce_witness :
    (srtp_aes_icm_openssl_set_iv test_ctx_128
        (List.replicate 14 0 ++ [1, 1]) 0).2.counter.getD 14 0
      = (List.replicate 14 0 ++ [1, 1]).getD 14 0 ∧
    (srtp_aes_icm_openssl_set_iv test_ctx_128
        (List.replicate 14 0 ++ [1, 1]) 0).2.counter.getD 15 0
      = (List.replicate 14 0 ++ [1, 1]).getD 15 0 :=
  srtp_aes_icm_set_iv_trailing_eq_nonce test_ctx_128
    (List.replicate 14 0 ++ [1, 1]) 0 (by decide) (by decide) (by decide) (by decide)

/-- `chunk4` produces words of length 4, one per 4 input bytes. -/
theorem chunk4_facts (fuel : Nat) : ∀ l : List Nat, l.length ≤ fuel →
    ((AesIcm.chunk4 l).length = l.length / 4 ∧ ∀ w ∈ AesIcm.chunk4 l, w.length = 4) := by
  induction fuel with
  | zero =>
    intro l hl
    have : l = [] := List.eq_nil_of_length_eq_zero (by omega)
    subst this
    exact ⟨rfl, by intro w hw; simp [AesIcm.chunk4] at hw⟩
  | succ n ih =>
    intro l hl
    rcases l with _ | ⟨a, l⟩
    · exact ⟨by simp [AesIcm.chunk4], by intro w hw; simp [AesIcm.chunk4] at hw⟩
    rcases l with _ | ⟨b, l⟩
    · exact ⟨by simp [AesIcm.chunk4], by intro w hw; simp [AesIcm.chunk4] at hw⟩
    rcases l with _ | ⟨c, l⟩
    · exact ⟨by simp [AesIcm.chunk4], by intro w hw; simp [AesIcm.chunk4] at hw⟩
    rcases l with _ | ⟨d, l⟩
    · exact ⟨by simp [AesIcm.chunk4], by intro w hw; simp [AesIcm.chunk4] at hw⟩
    have hrec := ih l (by simp at hl; omega)
    constructor
    · show (AesIcm.chunk4 l).length + 1 = (a :: b :: c :: d :: l).length / 4
      rw [hrec.1]
      simp only [List.length_cons]
      rw [show l.length + 1 + 1 + 1 + 1 = l.length + 4 by omega,
        Nat.add_div_right _ (by norm_num)]
    · intro w hw
      rcases List.mem_cons.mp hw with rfl | hw
      · rfl
      · exact hrec.2 w hw

/-- An in-bounds `getD` read is a member of the list. -/
theorem getD_mem_of_lt (l : List (List Nat)) (n : Nat) (h : n < l.length) :
    l.getD n [] ∈ l := by
  rw [List.getD_eq_getElem l [] h]
  exact l.getElem_mem h

/-- Each key-schedule step yields a 4-byte word. -/
theorem expandStep_length (nk : Nat) (ws : List (List Nat)) (hnk : 1 ≤ nk)
    (hlen : nk ≤ ws.length) (hall : ∀ w ∈ ws, w.length = 4) :
    (AesIcm.expandStep nk ws).length = 4 := by
  have l1 : (ws.getD (ws.length - 1) []).length = 4 :=
    hall _ (getD_mem_of_lt _ _ (by omega))
  have l2 : (ws.getD (ws.length - nk) []).length = 4 :=
    hall _ (getD_mem_of_lt _ _ (by omega))
  simp only [List.getD_eq_getElem?_getD] at l1 l2
  simp only [AesIcm.expandStep]
  split
  · simp [AesIcm.wordXor, AesIcm.subWord, AesIcm.rotWord, List.length_zipWith,
      l1, l2]
  · split
    · simp [AesIcm.wordXor, AesIcm.subWord, List.length_zipWith, l1, l2]
    · simp [AesIcm.wordXor, List.length_zipWith, l1, l2]

/-- `keyExpandAux` adds one word per fuel unit. -/
theorem keyExpandAux_length (nk n : Nat) : ∀ ws : List (List Nat),
    (AesIcm.keyExpandAux nk n ws).length = ws.length + n := by
  induction n with
  | zero => intro ws; simp [AesIcm.keyExpandAux]
  | succ m ih =>
    intro ws
    show (AesIcm.keyExpandAux nk m (ws ++ [AesIcm.expandStep nk ws])).length = ws.length + (m + 1)
    rw [ih]
    simp
    omega

/-- All key-schedule words are 4 bytes long. -/
theorem keyExpandAux_all (nk : Nat) (hnk : 1 ≤ nk) (n : Nat) :
    ∀ ws : List (List Nat), nk ≤ ws.length → (∀ w ∈ ws, w.length = 4) →
    ∀ w ∈ AesIcm.keyExpandAux nk n ws, w.length = 4 := by
  induction n with
  | zero => intro ws _ hall; simpa [AesIcm.keyExpandAux] using hall
  | succ m ih =>
    intro ws hlen hall w hw
    refine ih (ws ++ [AesIcm.expandStep nk ws]) (by simp; omega) ?_ w hw
    intro w' hw'
    rcases List.mem_append.mp hw' with h | h
    · exact hall w' h
    · rw [List.mem_singleton.mp h]
      exact expandStep_length nk ws hnk hlen hall

/-- All words of the full key expansion are 4 bytes long. -/
theorem keyExpansion_all (key : List Nat) (h4 : 4 ≤ key.length) :
    ∀ w ∈ AesIcm.keyExpansion key, w.length = 4 := by
  have hc := chunk4_facts key.length key le_rfl
  have hnk : 1 ≤ key.length / 4 := (Nat.one_le_div_iff (by norm_num)).mpr h4
  exact keyExpandAux_all (key.length / 4) hnk _ (AesIcm.chunk4 key)
    (le_of_eq hc.1.symm) hc.2

/-- Length of the full key expansion. -/
theorem keyExpansion_length (key : List Nat) :
    (AesIcm.keyExpansion key).length = 4 * (key.length / 4) + 28 := by
  have hc := (chunk4_facts key.length key le_rfl).1
  show (AesIcm.keyExpandAux (key.length / 4)
    (4 * (key.length / 4 + 6 + 1) - key.length / 4) (AesIcm.chunk4 key)).length = _
  rw [keyExpandAux_length, hc]
  omega

/-- Sum of lengths over a list of equal-length words. -/
theorem sum_map_length_const (k : Nat) : ∀ l : List (List Nat),
    (∀ w ∈ l, w.length = k) → (l.map List.length).sum = k * l.length := by
  intro l
  induction l with
  | nil => simp
  | cons x xs ih =>
    intro h
    simp only [List.map_cons, List.sum_cons, List.length_cons, h x (by simp)]
    rw [ih (fun w hw => h w (List.mem_cons_of_mem _ hw))]
    ring

/-- Each round key is 16 bytes when the schedule is long enough. -/
theorem roundKey_length (ws : List (List Nat)) (r : Nat)
    (hall : ∀ w ∈ ws, w.length = 4) (hb : 4 * r + 4 ≤ ws.length) :
    (AesIcm.roundKey ws r).length = 16 := by
  have ht : ((ws.drop (4 * r)).take 4).length = 4 := by
    simp only [List.length_take, List.length_drop]
    omega
  have hm : ∀ w ∈ (ws.drop (4 * r)).take 4, w.length = 4 :=
    fun w hw => hall w (List.mem_of_mem_drop (List.mem_of_mem_take hw))
  show ((ws.drop (4 * r)).take 4).flatten.length = 16
  rw [List.length_flatten, sum_map_length_const 4 _ hm, ht]

/-- `shiftRows` always yields 16 bytes. -/
theorem shiftRows_length (s : List Nat) : (AesIcm.shiftRows s).length = 16 := by
  simp [AesIcm.shiftRows]

/-- The final AES round yields 16 bytes whenever its round key has 16. -/
theorem aesFinalRound_length (rk s : List Nat) (hrk : rk.length = 16) :
    (AesIcm.aesFinalRound rk s).length = 16 := by
  simp [AesIcm.aesFinalRound, AesIcm.addRoundKey, AesIcm.wordXor,
    List.length_zipWith, shiftRows_length, hrk]

/-- AES block encryption yields a 16-byte block for the three legal key
lengths. -/
theorem aes_encrypt_block_length (key block : List Nat)
    (hkl : key.length = 16 ∨ key.length = 24 ∨ key.length = 32) :
    (AesIcm.aes_encrypt_block key block).length = 16 := by
  have h4 : 4 ≤ key.length := by rcases hkl with h | h | h <;> omega
  have hall := keyExpansion_all key h4
  have hlen := keyExpansion_length key
  show (AesIcm.aesFinalRound
      (AesIcm.roundKey (AesIcm.keyExpansion key) (key.length / 4 + 6)) _).length = 16
  exact aesFinalRound_length _ _ (roundKey_length _ _ hall (by omega))

/-- A counter block is always 16 bytes. -/
theorem ctrBlock_length (ctr : List Nat) (i : Nat) :
    (AesIcm.ctrBlock ctr i).length = 16 := by
  simp [AesIcm.ctrBlock, AesIcm.natToBlock]

/-- The keystream block sequence has 16 bytes per block. -/
theorem keystreamBlocks_length (key ctr : List Nat) (n : Nat)
    (hkl : key.length = 16 ∨ key.length = 24 ∨ key.length = 32) :
    (AesIcm.keystreamBlocks key ctr n).length = 16 * n := by
  show ((List.range n).map
    (fun i => AesIcm.aes_encrypt_block key (AesIcm.ctrBlock ctr i))).flatten.length = 16 * n
  rw [List.length_flatten, sum_map_length_const 16]
  · simp
  · intro w hw
    rcases List.mem_map.mp hw with ⟨i, _, rfl⟩
    exact aes_encrypt_block_length key _ hkl

/-- Requesting `n` keystream bytes from position 0 yields exactly `n`. -/
theorem keystreamBytes_length (key ctr : List Nat) (n : Nat)
    (hkl : key.length = 16 ∨ key.length = 24 ∨ key.length = 32) :
    (AesIcm.keystreamBytes key ctr 0 n).length = n := by
  have hceil : n ≤ 16 * ((n + 15) / 16) := by
    have h1 := Nat.div_add_mod (n + 15) 16
    have h2 : (n + 15) % 16 < 16 := Nat.mod_lt _ (by norm_num)
    omega
  show (((AesIcm.keystreamBlocks key ctr ((0 + n + 15) / 16)).drop 0).take n).length = n
  rw [List.length_take, List.drop_zero, keystreamBlocks_length key ctr _ hkl]
  simp only [Nat.zero_add]
  omega

/-- The equation of `encrypt` on a seeded context. -/
theorem encrypt_some (c : srtp_aes_icm_ctx_t) (st : EvpCtrState) (buf : List Nat)
    (h : c.ctx = some st) :
    srtp_aes_icm_openssl_encrypt c buf
      = (.ok, { c with ctx := some { st with pos := st.pos + buf.length } },
         List.zipWith HXor.hXor buf
           (AesIcm.keystreamBytes st.key st.counter st.pos buf.length)) := by
  simp [srtp_aes_icm_openssl_encrypt, h]

/-- XORing twice with the same (sufficiently long) keystream restores the
original buffer. -/
theorem zipWith_xor_cancel (a : List Nat) : ∀ b : List Nat, a.length ≤ b.length →
    List.zipWith HXor.hXor (List.zipWith HXor.hXor a b) b = a := by
  induction a with
  | nil => intro b _; simp
  | cons x xs ih =>
    intro b hb
    rcases b with _ | ⟨y, ys⟩
    · simp at hb
    · simp only [List.zipWith_cons_cons]
      rw [ih ys (by simpa using hb)]
      rw [Nat.xor_cancel_right]

/-- The seeded EVP state installed by a successful `set_iv`. -/
theorem set_iv_snd_ctx (c : srtp_aes_icm_ctx_t) (iv : List Nat) (dir : Int)
    (hk : c.key_size = 16 ∨ c.key_size = 24 ∨ c.key_size = 32) :
    (srtp_aes_icm_openssl_set_iv c iv dir).2.ctx
      = some { key := c.key.take c.key_size
               counter := v128_xor c.offset (v128_copy_octet_string iv)
               pos := 0 } := by
  rcases hk with h | h | h <;>
    simp [srtp_aes_icm_openssl_set_iv, SRTP_AES_128_KEYSIZE,
      SRTP_AES_192_KEYSIZE, SRTP_AES_256_KEYSIZE, h]

/-- C6: for every context of a legal key-size class (with its 32-byte key
storage), nonce and plaintext, encrypting after `set_iv` and then
processing the ciphertext on a context re-seeded with the same nonce
recovers the plaintext byte for byte; and in all three cipher function
tables the encrypt and decrypt entry points are the identical transform. -/
theorem srtp_aes_icm_ctr_roundtrip_and_shared_entry
    (c : srtp_aes_icm_ctx_t) (iv pt : List Nat) (dir dir2 : Int)
    (hk : c.key_size = 16 ∨ c.key_size = 24 ∨ c.key_size = 32)
    (hckey : c.key.length = 32) :
    (srtp_aes_icm_openssl_encrypt (srtp_aes_icm_openssl_set_iv c iv dir2).2
        (srtp_aes_icm_openssl_encrypt (srtp_aes_icm_openssl_set_iv c iv dir).2
          pt).2.2).2.2 = pt ∧
    srtp_aes_icm.encrypt = srtp_aes_icm.decrypt ∧
    srtp_aes_icm_192.encrypt = srtp_aes_icm_192.decrypt ∧
    srtp_aes_icm_256.encrypt = srtp_aes_icm_256.decrypt := by
  refine ⟨?_, rfl, rfl, rfl⟩
  have hctx1 := set_iv_snd_ctx c iv dir hk
  have hctx2 := set_iv_snd_ctx c iv dir2 hk
  have hstk : (c.key.take c.key_size).length = c.key_size := by
    rw [List.length_take, hckey]
    rcases hk with h | h | h <;> simp [h]
  have hkl : (c.key.take c.key_size).length = 16 ∨
      (c.key.take c.key_size).length = 24 ∨
      (c.key.take c.key_size).length = 32 := by
    rw [hstk]; exact hk
  rw [encrypt_some _ _ pt hctx1]
  simp only []
  rw [encrypt_some _ _ _ hctx2]
  simp only []
  have hks := keystreamBytes_length (c.key.take c.key_size)
    (v128_xor c.offset (v128_copy_octet_string iv)) pt.length hkl
  have hct : (List.zipWith HXor.hXor pt
      (AesIcm.keystreamBytes (c.key.take c.key_size)
        (v128_xor c.offset (v128_copy_octet_string iv)) 0 pt.length)).length
      = pt.length := by
    rw [List.length_zipWith, hks]
    simp
  rw [hct]
  exact zipWith_xor_cancel pt _ (le_of_eq hks.symm)

/-- Witness for C6 on the initialized AES-128 fixture context. -/
theorem srtp_aes_icm_ctr_roundtrip_and_shared_entry_witness :
    (srtp_aes_icm_openssl_encrypt
        (srtp_aes_icm_openssl_set_iv test_ctx_128 (List.replicate 16 0) 1).2
        (srtp_aes_icm_openssl_encrypt
          (srtp_aes_icm_openssl_set_iv test_ctx_128 (List.replicate 16 0) 0).2
          (List.replicate 32 0)).2.2).2.2 = List.replicate 32 0 ∧
    srtp_aes_icm.encrypt = srtp_aes_icm.decrypt ∧
    srtp_aes_icm_192.encrypt = srtp_aes_icm_192.decrypt ∧
    srtp_aes_icm_256.encrypt = srtp_aes_icm_256.decrypt :=
  srtp_aes_icm_ctr_roundtrip_and_shared_entry test_ctx_128
    (List.replicate 16 0) (List.replicate 32 0) 0 1 (Or.inl (by decide)) (by decide)

/-- One caller-visible step on an initialized context: a `set_iv` call or
an `encrypt`/`decrypt` call (both entry points are the same function). -/
inductive IcmStep where
  | set_iv_step (iv : List Nat) (dir : Int)
  | process_step (buf : List Nat)

/-- Run a sequence of steps on a context, as the protocol layer would. -/
def icm_run (c : srtp_aes_icm_ctx_t) : List IcmStep → srtp_aes_icm_ctx_t
  | [] => c
  | IcmStep.set_iv_step iv dir :: rest =>
    icm_run (srtp_aes_icm_openssl_set_iv c iv dir).2 rest
  | IcmStep.process_step buf :: rest =>
    icm_run (srtp_aes_icm_openssl_encrypt c buf).2.1 rest

/-- Any run of `set_iv` and `process` steps leaves the offset, the key
storage and the key size untouched. -/
theorem icm_run_preserves : ∀ (ops : List IcmStep) (c : srtp_aes_icm_ctx_t),
    (icm_run c ops).offset = c.offset ∧ (icm_run c ops).key = c.key ∧
    (icm_run c ops).key_size = c.key_size := by
  intro ops
  induction ops with
  | nil => exact fun c => ⟨rfl, rfl, rfl⟩
  | cons op rest ih =>
    intro c
    cases op with
    | set_iv_step iv dir =>
      have h := ih (srtp_aes_icm_openssl_set_iv c iv dir).2
      exact ⟨h.1.trans (set_iv_snd_offset c iv dir),
        h.2.1.trans (set_iv_snd_key c iv dir),
        h.2.2.trans (set_iv_snd_key_size c iv dir)⟩
    | process_step buf =>
      have h := ih (srtp_aes_icm_openssl_encrypt c buf).2.1
      have e := encrypt_preserves_fields c buf
      exact ⟨h.1.trans e.2.1, h.2.1.trans e.2.2.1, h.2.2.trans e.2.2.2⟩

/-- Reading an appended list past the first part reads the second part. -/
theorem getD_append_of_le (l₁ l₂ : List Nat) (n : Nat) (h : l₁.length ≤ n) :
    (l₁ ++ l₂).getD n 0 = l₂.getD (n - l₁.length) 0 := by
  induction l₁ generalizing n with
  | nil => simp
  | cons x xs ih =>
    cases n with
    | zero => simp at h
    | succ m =>
      simp only [List.cons_append, List.getD_cons_succ, List.length_cons]
      rw [ih m (by simpa using h)]
      simp [Nat.succ_sub_succ]

/-- C10: after `initialize`, bytes 14 and 15 of the offset are zero, and
no sequence of `set_iv` and `process` calls ever modifies the offset or
the key storage; hence in every reachable state the offset's trailing 16
bits stay zero and each counter derived by a further `set_iv` agrees with
the supplied nonce on its trailing 16 bits. -/
theorem srtp_aes_icm_offset_key_invariant (c : srtp_aes_icm_ctx_t)
    (key : List Nat) (ops : List IcmStep)
    (hlen : c.key_size + 14 ≤ key.length) :
    (icm_run (srtp_aes_icm_openssl_context_init c key).2 ops).offset
      = (srtp_aes_icm_openssl_context_init c key).2.offset ∧
    (icm_run (srtp_aes_icm_openssl_context_init c key).2 ops).key
      = (srtp_aes_icm_openssl_context_init c key).2.key ∧
    (icm_run (srtp_aes_icm_openssl_context_init c key).2 ops).offset.getD 14 0
      = 0 ∧
    (icm_run (srtp_aes_icm_openssl_context_init c key).2 ops).offset.getD 15 0
      = 0 ∧
    (∀ iv dir, iv.length = 16 →
      (srtp_aes_icm_openssl_set_iv
          (icm_run (srtp_aes_icm_openssl_context_init c key).2 ops)
          iv dir).2.counter.getD 14 0 = iv.getD 14 0 ∧
      (srtp_aes_icm_openssl_set_iv
          (icm_run (srtp_aes_icm_openssl_context_init c key).2 ops)
          iv dir).2.counter.getD 15 0 = iv.getD 15 0) := by
  have hpres := icm_run_preserves ops (srtp_aes_icm_openssl_context_init c key).2
  have hoff : (srtp_aes_icm_openssl_context_init c key).2.offset
      = (key.drop c.key_size).take 14 ++ [0, 0] :=
    (context_init_offset c key).trans
      ((context_init_salt_block c key hlen) ▸ context_init_counter c key)
  have hslen : ((key.drop c.key_size).take 14).length = 14 := by
    simp only [List.length_take, List.length_drop]
    omega
  have hrunoff : (icm_run (srtp_aes_icm_openssl_context_init c key).2 ops).offset
      = (key.drop c.key_size).take 14 ++ [0, 0] := hpres.1.trans hoff
  have h14 : (icm_run (srtp_aes_icm_openssl_context_init c key).2 ops).offset.getD 14 0
      = 0 := by
    rw [hrunoff, getD_append_of_le _ _ _ (le_of_eq hslen), hslen]
    rfl
  have h15 : (icm_run (srtp_aes_icm_openssl_context_init c key).2 ops).offset.getD 15 0
      = 0 := by
    rw [hrunoff, getD_append_of_le _ _ _ (by omega), hslen]
    rfl
  have hofflen :
      (icm_run (srtp_aes_icm_openssl_context_init c key).2 ops).offset.length = 16 := by
    rw [hrunoff]
    simp [hslen]
  refine ⟨hpres.1, hpres.2.1, h14, h15, ?_⟩
  intro iv dir hiv
  exact set_iv_trailing_of_offset_zero _ iv dir hofflen h14 h15 hiv

/-- Witness for C10: a run of one `set_iv` and one `process` step on the
AES-128 fixture, probed with a nonce carrying nonzero trailing bytes. -/
theorem srtp_aes_icm_offset_key_invariant_witness :
    (icm_run (srtp_aes_icm_openssl_context_init { zero_icm_ctx with key_size := 16 }
        srtp_aes_icm_test_case_0_key).2
        [IcmStep.set_iv_step (List.replicate 16 0) 0,
         IcmStep.process_step (List.replicate 32 0)]).offset
      = (srtp_aes_icm_openssl_context_init { zero_icm_ctx with key_size := 16 }
          srtp_aes_icm_test_case_0_key).2.offset ∧
    (icm_run (srtp_aes_icm_openssl_context_init { zero_icm_ctx with key_size := 16 }
        srtp_aes_icm_test_case_0_key).2
        [IcmStep.set_iv_step (List.replicate 16 0) 0,
         IcmStep.process_step (List.replicate 32 0)]).key
      = (srtp_aes_icm_openssl_context_init { zero_icm_ctx with key_size := 16 }
          srtp_aes_icm_test_case_0_key).2.key ∧
    (icm_run (srtp_aes_icm_openssl_context_init { zero_icm_ctx with key_size := 16 }
        srtp_aes_icm_test_case_0_key).2
        [IcmStep.set_iv_step (List.replicate 16 0) 0,
         IcmStep.process_step (List.replicate 32 0)]).offset.getD 14 0 = 0 ∧
    (icm_run (srtp_aes_icm_openssl_context_init { zero_icm_ctx with key_size := 16 }
        srtp_aes_icm_test_case_0_key).2
        [IcmStep.set_iv_step (List.replicate 16 0) 0,
         IcmStep.process_step (List.replicate 32 0)]).offset.getD 15 0 = 0 ∧
    ((srtp_aes_icm_openssl_set_iv
        (icm_run (srtp_aes_icm_openssl_context_init { zero_icm_ctx with key_size := 16 }
          srtp_aes_icm_test_case_0_key).2
          [IcmStep.set_iv_step (List.replicate 16 0) 0,
           IcmStep.process_step (List.replicate 32 0)])
        (List.replicate 14 0 ++ [9, 9]) 0).2.counter.getD 14 0
      = (List.replicate 14 0 ++ [9, 9]).getD 14 0 ∧
     (srtp_aes_icm_openssl_set_iv
        (icm_run (srtp_aes_icm_openssl_context_init { zero_icm_ctx with key_size := 16 }
          srtp_aes_icm_test_case_0_key).2
          [IcmStep.set_iv_step (List.replicate 16 0) 0,
           IcmStep.process_step (List.replicate 32 0)])
        (List.replicate 14 0 ++ [9, 9]) 0).2.counter.getD 15 0
      = (List.replicate 14 0 ++ [9, 9]).getD 15 0) := by
  have h := srtp_aes_icm_offset_key_invariant { zero_icm_ctx with key_size := 16 }
    srtp_aes_icm_test_case_0_key
    [IcmStep.set_iv_step (List.replicate 16 0) 0,
     IcmStep.process_step (List.replicate 32 0)] (by decide)
  exact ⟨h.1, h.2.1, h.2.2.1, h.2.2.2.1,
    h.2.2.2.2 (List.replicate 14 0 ++ [9, 9]) 0 (by decide)⟩
